import Mathlib

/-!
Verification of scripts/debug_modal.py, a debug utility that resolves a
remotely deployed serverless function by name and invokes it once with a
hardcoded test string, printing the result or reporting an error.

Embedding notes. The script is a linear try/except sequence driven entirely
by the external remote-execution platform (the modal client library) and the
console. We embed a run of main() as a function of a World describing the
external behaviour: the outcome of modal.Function.from_name, the outcome of
f.remote, and whether each of the two print statements inside the try block
raises (in Python, print can raise, e.g. on a broken pipe, and printing the
returned object invokes its string conversion, which can raise; both sites
sit inside the try block, so the except clause covers them). The prints
outside the try block (the preamble on line 8 and the error message in the
handler) are modelled as plain output events. A run yields the ordered list
of observable events (lines printed, the lookup attempt, the remote-call
attempt) together with the process exit status.
-/

/-- An exception value caught by the except clause on line 20: its Python
class name and the text produced by its string conversion, which is what the
formatted message on line 21 interpolates. -/
structure Exc where
  kind : String
  msg : String
deriving DecidableEq, Repr

/-- A callable handle for a deployed remote function, as returned by
modal.Function.from_name on line 16 (opaque to the script). -/
structure FuncHandle where
  id : Nat
deriving DecidableEq, Repr

/-- An application handle, as constructed by modal.App on line 5
(opaque to the script). -/
structure AppHandle where
  name : String
deriving DecidableEq, Repr

/-- Behaviour of the external platform and console during one run:
the outcome of the name lookup, the outcome of the remote invocation, and
whether either print statement inside the try block raises. -/
structure World where
  from_name : String → String → Except Exc FuncHandle
  remote : FuncHandle → String → Except Exc String
  printSuccessExc : Option Exc
  printResultExc : Option Exc

/-- Observable events of one run of the script. -/
inductive Event where
  | printed (line : String)
  | lookup (appName fnName : String)
  | remoteCall (f : FuncHandle) (arg : String)
deriving DecidableEq, Repr

/-- The preamble line printed on line 8, outside the try block. -/
def preambleLine : String := "Invoking generate_sparse_embedding_internal remotely..."

/-- The application name string on lines 5 and 16. -/
def appName : String := "legal-search-api"

/-- The function name string on line 16. -/
def fnName : String := "generate_sparse_embedding_internal"

/-- The hardcoded test payload passed to f.remote on line 17. -/
def testPayload : String := "test query"

/-- The fixed success marker printed on line 18. -/
def successMarker : String := "Success!"

/-- The formatted message printed by the except handler on line 21:
the text "Error: " followed by the string conversion of the exception. -/
def errorLine (e : Exc) : String := "Error: " ++ e.msg

/-- The module-level application handle on line 5:
app = modal.App("legal-search-api"). -/
def app : AppHandle := AppHandle.mk "legal-search-api"

/-- One run of main() (lines 7-22), given the module-level handle in scope
(line 5, unused by the body) and the external world. Returns the event trace
and the process exit status. The lookup event records the from_name attempt
on line 16; the remoteCall event records the f.remote attempt on line 17;
each fallible step that raises transfers control to the except clause on
line 20, which prints the formatted message and exits with status 1
(lines 21-22); if the whole try block completes, main returns and the
process exits with status 0. -/
def mainWithApp (a : AppHandle) (w : World) : List Event × Nat :=
  match w.from_name appName fnName with
  | Except.error e =>
      ([Event.printed preambleLine, Event.lookup appName fnName,
        Event.printed (errorLine e)], 1)
  | Except.ok f =>
      match w.remote f testPayload with
      | Except.error e =>
          ([Event.printed preambleLine, Event.lookup appName fnName,
            Event.remoteCall f testPayload, Event.printed (errorLine e)], 1)
      | Except.ok result =>
          match w.printSuccessExc with
          | some e =>
              ([Event.printed preambleLine, Event.lookup appName fnName,
                Event.remoteCall f testPayload, Event.printed (errorLine e)], 1)
          | none =>
              match w.printResultExc with
              | some e =>
                  ([Event.printed preambleLine, Event.lookup appName fnName,
                    Event.remoteCall f testPayload, Event.printed successMarker,
                    Event.printed (errorLine e)], 1)
              | none =>
                  ([Event.printed preambleLine, Event.lookup appName fnName,
                    Event.remoteCall f testPayload, Event.printed successMarker,
                    Event.printed result], 0)

/-- One run of the script: main() with the module-level handle of line 5. -/
def mainRun (w : World) : List Event × Nat := mainWithApp app w

/-- One run of the script as a process, with whatever command-line arguments
were supplied. The source never reads sys.argv, so the arguments do not occur
in the body. -/
def mainRunWithArgs (argv : List String) (w : World) : List Event × Nat :=
  mainRun w

/-- The lines printed to the console during a run, in order. -/
def outputLines (tr : List Event) : List String :=
  tr.filterMap fun ev =>
    match ev with
    | Event.printed s => some s
    | _ => none

/-- Whether an event is a remote-call attempt. -/
def isRemoteCall : Event → Bool
  | Event.remoteCall _ _ => true
  | _ => false

/-- Number of remote-call attempts in a trace. -/
def countRemoteCalls (tr : List Event) : Nat := (tr.filter isRemoteCall).length

/- Concrete worlds used to evaluate the definitions. -/

/-- A sample handle returned by a successful lookup. -/
def testHandle : FuncHandle := FuncHandle.mk 0

/-- A sample string representation of the value returned by the remote
function. -/
def sampleResult : String := "SparseEmbedding(indices=[12, 99], values=[0.4, 0.6])"

/-- A world where lookup, invocation and both prints succeed. -/
def okWorld : World where
  from_name := fun _ _ => Except.ok testHandle
  remote := fun _ _ => Except.ok sampleResult
  printSuccessExc := none
  printResultExc := none

/-- A broken-pipe exception raised by a print statement. -/
def brokenPipe : Exc := Exc.mk "BrokenPipeError" "Broken pipe"

/-- A world where the remote call succeeds but printing the returned value
raises. -/
def printFailWorld : World :=
  { okWorld with printResultExc := some brokenPipe }

/-- An exception raised when the deployed function cannot be found. -/
def missingFn : Exc :=
  Exc.mk "NotFoundError" "Function generate_sparse_embedding_internal not found"

/-- A world where the name lookup raises. -/
def lookupFailWorld : World where
  from_name := fun _ _ => Except.error missingFn
  remote := fun _ _ => Except.ok sampleResult
  printSuccessExc := none
  printResultExc := none

/-- An exception raised during the remote execution. -/
def remoteErr : Exc := Exc.mk "FunctionError" "ValueError: bad input shape"

/-- A world where the lookup succeeds and the remote invocation raises. -/
def remoteFailWorld : World where
  from_name := fun _ _ => Except.ok testHandle
  remote := fun _ _ => Except.error remoteErr
  printSuccessExc := none
  printResultExc := none

/- Helper lemmas: the five possible shapes of a run. -/

/-- Shape of a run whose lookup raises. -/
theorem run_lookup_error (w : World) (e : Exc)
    (hl : w.from_name appName fnName = Except.error e) :
    mainRun w = ([Event.printed preambleLine, Event.lookup appName fnName,
      Event.printed (errorLine e)], 1) := by
  simp [mainRun, mainWithApp, hl]

/-- Shape of a run whose lookup succeeds and whose remote invocation
raises. -/
theorem run_remote_error (w : World) (f : FuncHandle) (e : Exc)
    (hl : w.from_name appName fnName = Except.ok f)
    (hr : w.remote f testPayload = Except.error e) :
    mainRun w = ([Event.printed preambleLine, Event.lookup appName fnName,
      Event.remoteCall f testPayload, Event.printed (errorLine e)], 1) := by
  simp [mainRun, mainWithApp, hl, hr]

/-- Shape of a run where lookup and invocation succeed but printing the
success marker raises. -/
theorem run_print_success_error (w : World) (f : FuncHandle) (r : String) (e : Exc)
    (hl : w.from_name appName fnName = Except.ok f)
    (hr : w.remote f testPayload = Except.ok r)
    (hp : w.printSuccessExc = some e) :
    mainRun w = ([Event.printed preambleLine, Event.lookup appName fnName,
      Event.remoteCall f testPayload, Event.printed (errorLine e)], 1) := by
  simp [mainRun, mainWithApp, hl, hr, hp]

/-- Shape of a run where lookup and invocation succeed, the success marker is
printed, and printing the returned value raises. -/
theorem run_print_result_error (w : World) (f : FuncHandle) (r : String) (e : Exc)
    (hl : w.from_name appName fnName = Except.ok f)
    (hr : w.remote f testPayload = Except.ok r)
    (hp : w.printSuccessExc = none)
    (hq : w.printResultExc = some e) :
    mainRun w = ([Event.printed preambleLine, Event.lookup appName fnName,
      Event.remoteCall f testPayload, Event.printed successMarker,
      Event.printed (errorLine e)], 1) := by
  simp [mainRun, mainWithApp, hl, hr, hp, hq]

/-- Shape of a fully successful run. -/
theorem run_ok (w : World) (f : FuncHandle) (r : String)
    (hl : w.from_name appName fnName = Except.ok f)
    (hr : w.remote f testPayload = Except.ok r)
    (hp : w.printSuccessExc = none)
    (hq : w.printResultExc = none) :
    mainRun w = ([Event.printed preambleLine, Event.lookup appName fnName,
      Event.remoteCall f testPayload, Event.printed successMarker,
      Event.printed r], 0) := by
  simp [mainRun, mainWithApp, hl, hr, hp, hq]

/-- Case eliminator for a run: every run has one of five shapes, determined
by which fallible step (if any) raises first. -/
theorem mainRun_elim (w : World) (C : List Event × Nat → Prop)
    (hle : ∀ e, w.from_name appName fnName = Except.error e →
      C ([Event.printed preambleLine, Event.lookup appName fnName,
          Event.printed (errorLine e)], 1))
    (hre : ∀ f e, w.from_name appName fnName = Except.ok f →
      w.remote f testPayload = Except.error e →
      C ([Event.printed preambleLine, Event.lookup appName fnName,
          Event.remoteCall f testPayload, Event.printed (errorLine e)], 1))
    (hpe : ∀ f r e, w.from_name appName fnName = Except.ok f →
      w.remote f testPayload = Except.ok r → w.printSuccessExc = some e →
      C ([Event.printed preambleLine, Event.lookup appName fnName,
          Event.remoteCall f testPayload, Event.printed (errorLine e)], 1))
    (hqe : ∀ f r e, w.from_name appName fnName = Except.ok f →
      w.remote f testPayload = Except.ok r → w.printSuccessExc = none →
      w.printResultExc = some e →
      C ([Event.printed preambleLine, Event.lookup appName fnName,
          Event.remoteCall f testPayload, Event.printed successMarker,
          Event.printed (errorLine e)], 1))
    (hok : ∀ f r, w.from_name appName fnName = Except.ok f →
      w.remote f testPayload = Except.ok r → w.printSuccessExc = none →
      w.printResultExc = none →
      C ([Event.printed preambleLine, Event.lookup appName fnName,
          Event.remoteCall f testPayload, Event.printed successMarker,
          Event.printed r], 0)) :
    C (mainRun w) := by
  cases hl : w.from_name appName fnName with
  | error e => rw [run_lookup_error w e hl]; exact hle e hl
  | ok f =>
    cases hr : w.remote f testPayload with
    | error e => rw [run_remote_error w f e hl hr]; exact hre f e hl hr
    | ok r =>
      cases hp : w.printSuccessExc with
      | some e =>
        rw [run_print_success_error w f r e hl hr hp]; exact hpe f r e hl hr hp
      | none =>
        cases hq : w.printResultExc with
        | some e =>
          rw [run_print_result_error w f r e hl hr hp hq]
          exact hqe f r e hl hr hp hq
        | none => rw [run_ok w f r hl hr hp hq]; exact hok f r hl hr hp hq

/- Claim theorems. -/

/-- Claim C1 as stated is refuted: a concrete run in which the lookup and the
remote invocation both succeed, yet the process exits with status 1 and the
returned value never appears in the output, because printing the returned
value (inside the try block) raises and control passes to the except
handler. -/
theorem c1_counterexample :
    printFailWorld.from_name appName fnName = Except.ok testHandle ∧
    printFailWorld.remote testHandle testPayload = Except.ok sampleResult ∧
    (mainRun printFailWorld).2 = 1 ∧
    sampleResult ∉ outputLines (mainRun printFailWorld).1 := by
  refine ⟨rfl, rfl, rfl, ?_⟩
  decide

/-- Claim C1 (amended): for every run in which the lookup and the remote
invocation succeed and neither success-path print raises, the script prints
the fixed success marker, then the raw returned value, and the process exits
with status 0. -/
theorem c1_success_path (w : World) (f : FuncHandle) (r : String)
    (hl : w.from_name appName fnName = Except.ok f)
    (hr : w.remote f testPayload = Except.ok r)
    (hp : w.printSuccessExc = none)
    (hq : w.printResultExc = none) :
    outputLines (mainRun w).1 = [preambleLine, successMarker, r] ∧
    (mainRun w).2 = 0 := by
  rw [run_ok w f r hl hr hp hq]
  simp [outputLines]

/-- Witness for C1 (amended): a concrete successful run. -/
theorem c1_success_path_witness :
    okWorld.from_name appName fnName = Except.ok testHandle ∧
    okWorld.remote testHandle testPayload = Except.ok sampleResult ∧
    (outputLines (mainRun okWorld).1 = [preambleLine, successMarker, sampleResult] ∧
      (mainRun okWorld).2 = 0) :=
  ⟨rfl, rfl, c1_success_path okWorld testHandle sampleResult rfl rfl rfl rfl⟩

/-- Claim C2: whenever the lookup raises, or the lookup succeeds and the
remote invocation raises, the script prints the formatted message
"Error: " ++ description of the exception and exits with status 1. -/
theorem c2_failure_prints_error (w : World) (e : Exc)
    (h : w.from_name appName fnName = Except.error e ∨
      ∃ f, w.from_name appName fnName = Except.ok f ∧
        w.remote f testPayload = Except.error e) :
    ("Error: " ++ e.msg) ∈ outputLines (mainRun w).1 ∧ (mainRun w).2 = 1 := by
  rcases h with hl | ⟨f, hl, hr⟩
  · rw [run_lookup_error w e hl]
    exact ⟨by simp [outputLines, errorLine], rfl⟩
  · rw [run_remote_error w f e hl hr]
    exact ⟨by simp [outputLines, errorLine], rfl⟩

/-- Witness for C2: a concrete run whose lookup raises. -/
theorem c2_failure_prints_error_witness :
    lookupFailWorld.from_name appName fnName = Except.error missingFn ∧
    (("Error: " ++ missingFn.msg) ∈ outputLines (mainRun lookupFailWorld).1 ∧
      (mainRun lookupFailWorld).2 = 1) :=
  ⟨rfl, c2_failure_prints_error lookupFailWorld missingFn (Or.inl rfl)⟩

/-- Claim C3: every run issues the remote invocation at most once, exactly
once when the lookup succeeds, and never when the lookup raises; no shape of
run retries the call. -/
theorem c3_exactly_one_remote_call (w : World) :
    countRemoteCalls (mainRun w).1 ≤ 1 ∧
    (∀ f, w.from_name appName fnName = Except.ok f →
      countRemoteCalls (mainRun w).1 = 1) ∧
    (∀ e, w.from_name appName fnName = Except.error e →
      countRemoteCalls (mainRun w).1 = 0) := by
  refine mainRun_elim w (fun p =>
    countRemoteCalls p.1 ≤ 1 ∧
    (∀ f, w.from_name appName fnName = Except.ok f → countRemoteCalls p.1 = 1) ∧
    (∀ e, w.from_name appName fnName = Except.error e → countRemoteCalls p.1 = 0))
    ?_ ?_ ?_ ?_ ?_
  · intro e hl
    refine ⟨by simp [countRemoteCalls, isRemoteCall], fun f hf => ?_, fun e' he => ?_⟩
    · rw [hl] at hf; cases hf
    · simp [countRemoteCalls, isRemoteCall]
  · intro f e hl hr
    refine ⟨by simp [countRemoteCalls, isRemoteCall], fun f' hf => ?_, fun e' he => ?_⟩
    · simp [countRemoteCalls, isRemoteCall]
    · rw [hl] at he; cases he
  · intro f r e hl hr hp
    refine ⟨by simp [countRemoteCalls, isRemoteCall], fun f' hf => ?_, fun e' he => ?_⟩
    · simp [countRemoteCalls, isRemoteCall]
    · rw [hl] at he; cases he
  · intro f r e hl hr hp hq
    refine ⟨by simp [countRemoteCalls, isRemoteCall], fun f' hf => ?_, fun e' he => ?_⟩
    · simp [countRemoteCalls, isRemoteCall]
    · rw [hl] at he; cases he
  · intro f r hl hr hp hq
    refine ⟨by simp [countRemoteCalls, isRemoteCall], fun f' hf => ?_, fun e' he => ?_⟩
    · simp [countRemoteCalls, isRemoteCall]
    · rw [hl] at he; cases he

/-- Witness for C3: the concrete successful run issues exactly one remote
call. -/
theorem c3_exactly_one_remote_call_witness :
    okWorld.from_name appName fnName = Except.ok testHandle ∧
    countRemoteCalls (mainRun okWorld).1 = 1 :=
  ⟨rfl, (c3_exactly_one_remote_call okWorld).2.1 testHandle rfl⟩

/-- Claim C4: in every run, with any command-line arguments, every remote
call carries exactly the single positional argument "test query", the fixed
literal embedded in the script; the payload never depends on caller input. -/
theorem c4_fixed_payload (argv : List String) (w : World) (f : FuncHandle)
    (a : String)
    (h : Event.remoteCall f a ∈ (mainRunWithArgs argv w).1) :
    a = "test query" := by
  have h' : Event.remoteCall f a ∈ (mainRun w).1 := h
  revert h'
  refine mainRun_elim w
    (fun p => Event.remoteCall f a ∈ p.1 → a = "test query") ?_ ?_ ?_ ?_ ?_
  · intro e hl h'
    simp at h'
  · intro f' e hl hr h'
    simp [testPayload] at h'
    exact h'.2
  · intro f' r e hl hr hp h'
    simp [testPayload] at h'
    exact h'.2
  · intro f' r e hl hr hp hq h'
    simp [testPayload] at h'
    exact h'.2
  · intro f' r hl hr hp hq h'
    simp [testPayload] at h'
    exact h'.2

/-- Witness for C4: the concrete successful run contains a remote call whose
argument is the fixed literal. -/
theorem c4_fixed_payload_witness :
    Event.remoteCall testHandle "test query" ∈ (mainRunWithArgs [] okWorld).1 ∧
    "test query" = "test query" :=
  ⟨by decide, c4_fixed_payload [] okWorld testHandle "test query" (by decide)⟩

/-- Claim C5: every run attempts exactly the name lookup with application
name "legal-search-api" and function name "generate_sparse_embedding_internal"
(no lookup with any other names occurs), and every remote call invokes
precisely the handle that this lookup resolved to. -/
theorem c5_lookup_by_exact_names (w : World) :
    appName = "legal-search-api" ∧
    fnName = "generate_sparse_embedding_internal" ∧
    Event.lookup appName fnName ∈ (mainRun w).1 ∧
    (∀ a b, Event.lookup a b ∈ (mainRun w).1 → a = appName ∧ b = fnName) ∧
    (∀ f arg, Event.remoteCall f arg ∈ (mainRun w).1 →
      w.from_name appName fnName = Except.ok f) := by
  refine ⟨rfl, rfl, ?_⟩
  refine mainRun_elim w (fun p =>
    Event.lookup appName fnName ∈ p.1 ∧
    (∀ a b, Event.lookup a b ∈ p.1 → a = appName ∧ b = fnName) ∧
    (∀ f arg, Event.remoteCall f arg ∈ p.1 →
      w.from_name appName fnName = Except.ok f)) ?_ ?_ ?_ ?_ ?_
  · intro e hl
    refine ⟨by simp, fun a b hab => ?_, fun f arg hf => ?_⟩
    · simp at hab
      exact ⟨hab.1, hab.2⟩
    · simp at hf
  · intro f e hl hr
    refine ⟨by simp, fun a b hab => ?_, fun f' arg hf => ?_⟩
    · simp at hab
      exact ⟨hab.1, hab.2⟩
    · simp at hf
      rw [hl, hf.1]
  · intro f r e hl hr hp
    refine ⟨by simp, fun a b hab => ?_, fun f' arg hf => ?_⟩
    · simp at hab
      exact ⟨hab.1, hab.2⟩
    · simp at hf
      rw [hl, hf.1]
  · intro f r e hl hr hp hq
    refine ⟨by simp, fun a b hab => ?_, fun f' arg hf => ?_⟩
    · simp at hab
      exact ⟨hab.1, hab.2⟩
    · simp at hf
      rw [hl, hf.1]
  · intro f r hl hr hp hq
    refine ⟨by simp, fun a b hab => ?_, fun f' arg hf => ?_⟩
    · simp at hab
      exact ⟨hab.1, hab.2⟩
    · simp at hf
      rw [hl, hf.1]

/-- Witness for C5: the concrete successful run attempts the lookup with the
two exact names, and its remote call invokes the resolved handle. -/
theorem c5_lookup_by_exact_names_witness :
    Event.lookup appName fnName ∈ (mainRun okWorld).1 ∧
    (Event.remoteCall testHandle testPayload ∈ (mainRun okWorld).1 ∧
      okWorld.from_name appName fnName = Except.ok testHandle) :=
  ⟨(c5_lookup_by_exact_names okWorld).2.2.1,
    by decide,
    (c5_lookup_by_exact_names okWorld).2.2.2.2 testHandle testPayload (by decide)⟩

/-- Claim C6: every exception, of any kind, raised at the lookup or at the
remote invocation receives the identical treatment: the run ends with the
formatted message printed and exit status 1, the whole trace being a fixed
function of the raise site and of the string conversion of the exception
alone, so that exceptions with equal string conversions produce identical
printed messages whatever their kinds. -/
theorem c6_uniform_error_handling (w : World) (e : Exc) :
    (w.from_name appName fnName = Except.error e →
      mainRun w = ([Event.printed preambleLine, Event.lookup appName fnName,
        Event.printed (errorLine e)], 1)) ∧
    (∀ f, w.from_name appName fnName = Except.ok f →
      w.remote f testPayload = Except.error e →
      mainRun w = ([Event.printed preambleLine, Event.lookup appName fnName,
        Event.remoteCall f testPayload, Event.printed (errorLine e)], 1)) ∧
    (∀ e' : Exc, e.msg = e'.msg → errorLine e = errorLine e') :=
  ⟨run_lookup_error w e,
   fun f hl hr => run_remote_error w f e hl hr,
   fun e' h => by simp [errorLine, h]⟩

/-- Witness for C6: a concrete run whose lookup raises ends with the
formatted message and exit status 1. -/
theorem c6_uniform_error_handling_witness :
    lookupFailWorld.from_name appName fnName = Except.error missingFn ∧
    mainRun lookupFailWorld = ([Event.printed preambleLine,
      Event.lookup appName fnName, Event.printed (errorLine missingFn)], 1) :=
  ⟨rfl, (c6_uniform_error_handling lookupFailWorld missingFn).1 rfl⟩

/-- Claim C7: the observable behaviour of a run (event trace, hence printed
output, and exit status) does not depend on the command-line arguments: any
two argument lists give identical runs over the same world. -/
theorem c7_args_noninterference (argv1 argv2 : List String) (w : World) :
    mainRunWithArgs argv1 w = mainRunWithArgs argv2 w := rfl

/-- Claim C8: the module-level application handle is never used by main: the
body of main performs the lookup directly by name strings, so two runs that
differ only in the value of that handle have identical event traces and exit
statuses, and the actual run uses the handle built from "legal-search-api". -/
theorem c8_app_handle_unused (a1 a2 : AppHandle) (w : World) :
    mainWithApp a1 w = mainWithApp a2 w ∧
    mainRun w = mainWithApp app w ∧
    app = AppHandle.mk "legal-search-api" :=
  ⟨rfl, rfl, rfl⟩

/-- Claim C9: the except handler covers the success-path prints: exit status
0 forces both success-path prints to have completed (and the success marker
to be in the output); if the invocation succeeded but printing the success
marker raises, the run ends with the formatted message and status 1; if the
marker printed and printing the returned value raises, the success marker is
already in the output of a run that nevertheless prints the formatted
message and exits with status 1. -/
theorem c9_handler_covers_success_prints (w : World) :
    ((mainRun w).2 = 0 → w.printSuccessExc = none ∧ w.printResultExc = none ∧
      Event.printed successMarker ∈ (mainRun w).1) ∧
    (∀ f r e, w.from_name appName fnName = Except.ok f →
      w.remote f testPayload = Except.ok r → w.printSuccessExc = some e →
      mainRun w = ([Event.printed preambleLine, Event.lookup appName fnName,
        Event.remoteCall f testPayload, Event.printed (errorLine e)], 1)) ∧
    (∀ f r e, w.from_name appName fnName = Except.ok f →
      w.remote f testPayload = Except.ok r → w.printSuccessExc = none →
      w.printResultExc = some e →
      Event.printed successMarker ∈ (mainRun w).1 ∧
      Event.printed (errorLine e) ∈ (mainRun w).1 ∧
      (mainRun w).2 = 1) := by
  refine ⟨?_, fun f r e hl hr hp => run_print_success_error w f r e hl hr hp,
    fun f r e hl hr hp hq => ?_⟩
  · refine mainRun_elim w (fun p => p.2 = 0 →
      w.printSuccessExc = none ∧ w.printResultExc = none ∧
      Event.printed successMarker ∈ p.1) ?_ ?_ ?_ ?_ ?_
    · intro e hl h
      simp at h
    · intro f e hl hr h
      simp at h
    · intro f r e hl hr hp h
      simp at h
    · intro f r e hl hr hp hq h
      simp at h
    · intro f r hl hr hp hq h
      exact ⟨hp, hq, by simp⟩
  · rw [run_print_result_error w f r e hl hr hp hq]
    exact ⟨by simp, by simp, rfl⟩

/-- Witness for C9: a concrete run where the invocation succeeds, the success
marker is printed, printing the returned value raises, and the run exits with
status 1 after printing the formatted message. -/
theorem c9_handler_covers_success_prints_witness :
    printFailWorld.printResultExc = some brokenPipe ∧
    (Event.printed successMarker ∈ (mainRun printFailWorld).1 ∧
      Event.printed (errorLine brokenPipe) ∈ (mainRun printFailWorld).1 ∧
      (mainRun printFailWorld).2 = 1) :=
  ⟨rfl, (c9_handler_covers_success_prints printFailWorld).2.2 testHandle
    sampleResult brokenPipe rfl rfl rfl rfl⟩

/-- Claim C10: in every run, whatever the world does, the trace starts with
the preamble print immediately followed by the lookup attempt, so the
preamble is printed before the lookup and is the first line of output on
every path. -/
theorem c10_preamble_first (w : World) :
    (∃ rest, (mainRun w).1 =
      Event.printed preambleLine :: Event.lookup appName fnName :: rest) ∧
    (outputLines (mainRun w).1).head? = some preambleLine := by
  refine mainRun_elim w (fun p =>
    (∃ rest, p.1 =
      Event.printed preambleLine :: Event.lookup appName fnName :: rest) ∧
    (outputLines p.1).head? = some preambleLine) ?_ ?_ ?_ ?_ ?_
  · intro e hl
    exact ⟨⟨_, rfl⟩, by simp [outputLines]⟩
  · intro f e hl hr
    exact ⟨⟨_, rfl⟩, by simp [outputLines]⟩
  · intro f r e hl hr hp
    exact ⟨⟨_, rfl⟩, by simp [outputLines]⟩
  · intro f r e hl hr hp hq
    exact ⟨⟨_, rfl⟩, by simp [outputLines]⟩
  · intro f r hl hr hp hq
    exact ⟨⟨_, rfl⟩, by simp [outputLines]⟩
